import Mathlib

/-!
Verification development for the travel-planning conversation orchestrator.

The definitions below are a shallow embedding of the conversation core of the
repository: the follow-up chat route `continue_conversation` with its bounded
retry loop (`src/api/routes/plans_routes.py`), the history endpoint
`get_conversation_history`, the LangGraph wiring built by
`GraphBuilder.build_graph` (`src/agent/agentic_workflow.py`), and the cached
dependency factory `get_graph_builder` (`src/api/dependencies.py`).

Nondeterministic external collaborators (the compiled agent graph's `invoke`,
the language model, the tool registry) are passed in as function parameters,
so every theorem quantifies over their behaviour.
-/

namespace Vacation

/-- A role-tagged utterance as stored in `travel_plans.conversation_history`
(the Python dicts `{"role": ..., "content": ...}`). -/
structure Message where
  role : String
  content : String
deriving DecidableEq, Repr

/-- A tool call requested by the model (name plus serialized arguments). -/
structure ToolCall where
  name : String
  args : String
deriving DecidableEq, Repr

/-- LangChain message objects as used by the routes and the agent graph:
`HumanMessage`, `AIMessage` (which may carry tool calls), `SystemMessage`,
and tool-result messages produced by the `ToolNode`. -/
inductive LCMessage where
  | human (content : String)
  | ai (content : String) (tool_calls : List ToolCall)
  | system (content : String)
  | toolResult (content : String)
deriving DecidableEq, Repr

/-- The `.content` attribute every LangChain message carries. -/
def LCMessage.content : LCMessage → String
  | .human c => c
  | .ai c _ => c
  | .system c => c
  | .toolResult c => c

/-- The rows of `travel_plans` that the conversation endpoints read and write
(`src/database/models.py`, columns added by the
`add_conversation_history_to_travel_plans` migration). -/
structure TravelPlan where
  id : Nat
  content : String
  destination : String
  thread_id : Option String
  conversation_history : Option (List Message)
deriving DecidableEq, Repr

/-- `schemas.ChatResponse` returned by `continue_conversation`. -/
structure ChatResponse where
  message : String
  conversation_history : List Message
  plan_id : Nat
  thread_id : String
deriving DecidableEq, Repr

/-- The error-classification test in the retry loop
(`"tool_use_failed" in str(invoke_error) or "Failed to call a function" in
str(invoke_error)`), on the string rendering of the raised exception. -/
def isToolError (e : String) : Bool :=
  decide (List.IsInfix "tool_use_failed".toList e.toList)
    || decide (List.IsInfix "Failed to call a function".toList e.toList)

/-- The in-place simplification of the model input performed between retry
attempts: if the list is nonempty and its last element is a `HumanMessage`,
it is replaced by the paraphrase, otherwise the list is left alone. -/
def simplifyLast (msgs : List LCMessage) : List LCMessage :=
  match msgs.getLast? with
  | some (.human c) =>
      msgs.dropLast ++ [.human ("Please provide information about: " ++ c)]
  | _ => msgs

/-- The deterministic fallback assistant message synthesized when the last
retry attempt fails with a tool-invocation error (plans_routes.py line 102). -/
def fallbackResponse (dest : String) : String :=
  "I apologize, but I\x27m having trouble processing your request about "
    ++ dest
    ++ ". Please try rephrasing your question or ask something more specific about your trip plan."

/-- Behaviour of one `react_app.invoke` call: given the attempt index and the
current model-input message list, the compiled graph either returns the output
message list (`output["messages"]`) or raises an exception, rendered as a
string. A parameter of this type stands for the external agent graph. -/
def Invoke : Type :=
  Nat → List LCMessage → Except String (List LCMessage)

/-- The body of `for attempt in range(max_retries)` in `continue_conversation`,
indexed structurally by the number of remaining iterations (initially
`max_retries`, so `remaining + attempt = max_retries` throughout).
On success the response is extracted from the last output message
(`output["messages"][-1]`; an empty output raises `IndexError`, whose rendering
does not match the tool-error test and is therefore re-raised). On a
tool-invocation error the last user message is simplified and the loop retried
if attempts remain, otherwise the fallback response is produced. Any other
error is re-raised. The returned `Nat` counts the invoke attempts performed. -/
def chatLoopAux (invoke : Invoke) (maxRetries : Nat) (dest : String) :
    Nat → Nat → List LCMessage → Except String (String × Nat)
  | 0, attempt, _ => .ok ("", attempt)
  | remaining + 1, attempt, msgs =>
    match invoke attempt msgs with
    | .ok out =>
      match out.getLast? with
      | some m => .ok (m.content, attempt + 1)
      | none => .error "list index out of range"
    | .error e =>
      if isToolError e then
        if attempt < maxRetries - 1 then
          chatLoopAux invoke maxRetries dest remaining (attempt + 1) (simplifyLast msgs)
        else
          .ok (fallbackResponse dest, attempt + 1)
      else
        .error e

/-- The whole retry loop, entered at attempt 0 with `remaining = maxRetries`. -/
def chatLoop (invoke : Invoke) (maxRetries : Nat) (dest : String)
    (msgs : List LCMessage) : Except String (String × Nat) :=
  chatLoopAux invoke maxRetries dest maxRetries 0 msgs

/-- History seeding at the start of a follow-up turn:
`plan.conversation_history or []`, then, if that is empty, the single
assistant message holding the plan's original content. -/
def seededHistory (plan : TravelPlan) : List Message :=
  let ch := plan.conversation_history.getD []
  if ch.isEmpty then [⟨"assistant", plan.content⟩] else ch

/-- Conversion of the stored dicts to LangChain messages: role `"user"`
becomes a `HumanMessage`, anything else an `AIMessage`. -/
def toLangGraph (h : List Message) : List LCMessage :=
  h.map fun m => if m.role = "user" then .human m.content else .ai m.content []

/-- Modelled from the spec: `crud.update_conversation_history` is called by
both conversation routes but its definition is not among the sources (only the
callers and the `travel_plans` migration adding the `conversation_history` and
`thread_id` columns are). Per the spec's Persistence Adapter contract
`save(plan_id, thread_id, messages)`, it stores the full message log and the
thread id on the plan row and reports the updated row on success. -/
def update_conversation_history (plan : TravelPlan) (hist : List Message)
    (tid : String) : Option TravelPlan :=
  some { plan with conversation_history := some hist, thread_id := some tid }

/-- Python `x or y` on an optional string: `y` when `x` is `None` or empty. -/
def orFalsy (o : Option String) (dflt : String) : String :=
  match o with
  | some t => if t.isEmpty then dflt else t
  | none => dflt

/-- The follow-up chat endpoint `continue_conversation` (plans_routes.py),
after the plan-ownership lookup has succeeded, with `max_retries = 2` as in
the source. `.error` is the turn failing with an HTTP 500 (the route's outer
`except Exception` handler, or the explicit save-failure branch); `.ok`
carries the `ChatResponse` and the updated plan row. -/
def continue_conversation (invoke : Invoke) (userId : Nat) (plan : TravelPlan)
    (message : String) : Except String (ChatResponse × TravelPlan) :=
  let conversation_history := seededHistory plan ++ [⟨"user", message⟩]
  let langgraph_messages := toLangGraph conversation_history
  let thread_id :=
    orFalsy plan.thread_id ("user_" ++ toString userId ++ "_plan_" ++ toString plan.id)
  match chatLoop invoke 2 plan.destination langgraph_messages with
  | .error e => .error ("Failed to process message: " ++ e)
  | .ok (ai_response, _) =>
    let updated := conversation_history ++ [⟨"assistant", ai_response⟩]
    match update_conversation_history plan updated thread_id with
    | none => .error "Failed to save conversation to database"
    | some plan' =>
      .ok ({ message := ai_response,
             conversation_history := updated,
             plan_id := plan.id,
             thread_id := thread_id }, plan')

/-- Response shape of `GET /plans/plan_id/history`. -/
structure HistoryResponse where
  plan_id : Nat
  thread_id : String
  conversation : List Message
  message_count : Nat
deriving DecidableEq, Repr

/-- The read-only history endpoint `get_conversation_history`
(plans_routes.py), after the plan-ownership lookup has succeeded. -/
def get_conversation_history (plan : TravelPlan) : HistoryResponse :=
  let ch := plan.conversation_history.getD []
  { plan_id := plan.id
    thread_id := plan.thread_id.getD ""
    conversation := ch
    message_count := ch.length }

/-- The two-entry initial conversation stored by
`generate_and_save_travel_plan` right after a plan is generated
(plans_routes.py lines 217 to 227). -/
def initial_conversation (full_query plan_content : String) : List Message :=
  [⟨"user", full_query⟩, ⟨"assistant", plan_content⟩]

/-- Serial composition of follow-up turns on one plan: each turn runs
`continue_conversation` and threads the updated plan row into the next. -/
def runTurns (invoke : Invoke) (userId : Nat) :
    TravelPlan → List String → Except String TravelPlan
  | plan, [] => .ok plan
  | plan, m :: ms =>
    match continue_conversation invoke userId plan m with
    | .error e => .error e
    | .ok (_, plan') => runTurns invoke userId plan' ms

/-! ### The agent graph built by `GraphBuilder.build_graph` -/

/-- The nodes of the LangGraph state machine: the virtual `START` and `END`
markers and the two real nodes `"agent"` and `"tools"` added by
`build_graph`. -/
inductive GNode where
  | start
  | agent
  | tools
  | endNode
deriving DecidableEq, Repr

/-- The tool calls carried by the last message of the state, which is what
`langgraph.prebuilt.tools_condition` and the `ToolNode` inspect. Only an
`AIMessage` carries tool calls. -/
def lastToolCalls (msgs : List LCMessage) : List ToolCall :=
  match msgs.getLast? with
  | some (.ai _ tcs) => tcs
  | _ => []

/-- Modelled from the spec: `langgraph.prebuilt.tools_condition` is an
external collaborator (the checkpointed graph framework); it routes to the
`"tools"` node when the latest message carries one or more tool calls and to
`END` otherwise. -/
def tools_condition (msgs : List LCMessage) : GNode :=
  if (lastToolCalls msgs).isEmpty then .endNode else .tools

/-- Modelled from the spec: `get_system_prompt` is imported from
`prompt_library.prompt` but not defined among the sources; it selects the
initial-request system prompt or the follow-up conversation prompt. -/
def get_system_prompt (is_initial : Bool) : LCMessage :=
  if is_initial then .system "SYSTEM_PROMPT" else .system "CONVERSATION_PROMPT"

/-- `GraphBuilder.agent_function`: prepend the system prompt chosen by whether
this is an initial request (`len(messages) <= 1`), invoke the tool-bound
model, and return the response, which the `MessagesState` reducer appends to
the state. The model is a parameter. -/
def agent_function (model : List LCMessage → LCMessage)
    (msgs : List LCMessage) : List LCMessage :=
  let is_initial := decide (msgs.length ≤ 1)
  let input_question := get_system_prompt is_initial :: msgs
  msgs ++ [model input_question]

/-- Modelled from the spec: `langgraph.prebuilt.ToolNode` dispatches every
tool call requested by the latest message to the registry and appends the
results to the message log as tool-result entries. The registry is a
parameter. -/
def tool_node (registry : ToolCall → String) (msgs : List LCMessage) :
    List LCMessage :=
  msgs ++ (lastToolCalls msgs).map fun tc => .toolResult (registry tc)

/-- One superstep of the graph wired by `build_graph`: run the current node on
the state, then follow its outgoing edges. The edge list mirrors the source:
`add_edge(START, "agent")`, `add_conditional_edges("agent", tools_condition)`,
`add_edge("tools", "agent")`, `add_edge("agent", END)` — note the agent node
has both the conditional edges and an unconditional edge to `END`. Each result
pairs a successor node with the state it receives; `END` schedules nothing. -/
def graphStep (model : List LCMessage → LCMessage) (registry : ToolCall → String) :
    GNode × List LCMessage → List (GNode × List LCMessage)
  | (.start, msgs) => [(.agent, msgs)]
  | (.agent, msgs) =>
    let msgs' := agent_function model msgs
    [(tools_condition msgs', msgs'), (.endNode, msgs')]
  | (.tools, msgs) => [(.agent, tool_node registry msgs)]
  | (.endNode, _) => []

/-! ### The cached dependency factory `get_graph_builder` -/

/-- State of the `functools.lru_cache()` wrapper on `get_graph_builder`
together with an instrumentation of `GraphBuilder.__init__`: `entries` maps
argument values to instance identities, most recently used first; `nextId`
is the identity the next constructor run will produce; `ctorRuns` counts
constructor runs. -/
structure LruState where
  entries : List (String × Nat)
  nextId : Nat
  ctorRuns : Nat
deriving DecidableEq, Repr

/-- `functools.lru_cache()` default `maxsize`. -/
def lruMaxsize : Nat := 128

/-- The instance identity the cache currently associates to an argument. -/
def cachedId (st : LruState) (a : String) : Option Nat :=
  (st.entries.find? fun p => p.1 == a).map Prod.snd

/-- `get_graph_builder(model_provider)` under its `@lru_cache()` decorator:
on a hit the cached `GraphBuilder` instance is returned and moved to the
front; on a miss the constructor runs, the new instance is cached, and the
least recently used entry is dropped if the cache exceeds `lruMaxsize`. -/
def get_graph_builder (st : LruState) (model_provider : String) :
    Nat × LruState :=
  match st.entries.find? (fun p => p.1 == model_provider) with
  | some hit =>
      (hit.2,
       { st with
           entries := (model_provider, hit.2)
             :: st.entries.filter fun p => p.1 != model_provider })
  | none =>
      (st.nextId,
       { entries := ((model_provider, st.nextId) :: st.entries).take lruMaxsize
         nextId := st.nextId + 1
         ctorRuns := st.ctorRuns + 1 })

/-- The empty cache state present at process start. -/
def initLru : LruState := ⟨[], 0, 0⟩

/-- A sequence of `get_graph_builder` calls, returning the instance each call
yields and the final cache state. -/
def runCalls : LruState → List String → List Nat × LruState
  | st, [] => ([], st)
  | st, a :: as =>
    let r := get_graph_builder st a
    let rest := runCalls r.2 as
    (r.1 :: rest.1, rest.2)

/-! ### Observation helpers used in the theorem statements -/

/-- Whether a turn completed without raising to the caller. -/
def turnOk : Except String (ChatResponse × TravelPlan) → Bool
  | .ok _ => true
  | .error _ => false

/-- The assistant message a completed turn returned (empty on a failed turn). -/
def turnMessage : Except String (ChatResponse × TravelPlan) → String
  | .ok r => r.1.message
  | .error _ => ""

/-- The number of invoke attempts the retry loop reported (0 on a fatal turn). -/
def attemptsOf : Except String (String × Nat) → Nat
  | .ok r => r.2
  | .error _ => 0

/-- The persisted message log of the plan a serial run produced. -/
def historyOf : Except String TravelPlan → List Message
  | .ok p => p.conversation_history.getD []
  | .error _ => []

/-- Whether a serial run of follow-up turns completed without an error. -/
def isOkPlan : Except String TravelPlan → Bool
  | .ok _ => true
  | .error _ => false

/-- The user/assistant pair entries a sequence of follow-up turns appends:
each user message from `us` paired with the corresponding assistant reply
from `rs`. -/
def pairsLog : List String → List String → List Message
  | u :: us, r :: rs => ⟨"user", u⟩ :: ⟨"assistant", r⟩ :: pairsLog us rs
  | _, _ => []

/-- Checks that a log is exactly the given user messages in order, each
immediately followed by one assistant reply. -/
def pairsLogOk : List String → List Message → Bool
  | [], [] => true
  | u :: us, m1 :: m2 :: rest =>
    decide (m1 = ⟨"user", u⟩) && decide (m2.role = "assistant") && pairsLogOk us rest
  | _, _ => false

/-- Checks that a log is the given seed message followed by the given user
messages in order, each immediately followed by one assistant reply. -/
def seedPairsLogOk (seed : Message) (users : List String) : List Message → Bool
  | [] => false
  | m :: rest => decide (m = seed) && pairsLogOk users rest

/-- A graph invoke that always succeeds with a plain assistant answer. -/
def okInvoke : Invoke := fun _ _ => .ok [.ai "Sure, here are more details." []]

/-- A plan row exactly as `generate_and_save_travel_plan` leaves it: the
stored history is the two-entry `initial_conversation` (the generating user
query and the generated plan). -/
def genPlan : TravelPlan :=
  { id := 1
    content := "Day 1: arrive in Paris."
    destination := "Paris"
    thread_id := some "user_1_new_plan_1700000000"
    conversation_history :=
      some (initial_conversation "Plan a 3-day trip to Paris" "Day 1: arrive in Paris.") }

/-- One serial follow-up turn on the generated plan. -/
def genPlanRun : Except String TravelPlan :=
  runTurns okInvoke 1 genPlan ["What about hotels?"]

/-- A plan row with no stored conversation history. -/
def emptyPlan : TravelPlan := ⟨2, "Itinerary for Rome.", "Rome", none, none⟩

/-- The plan row left by two serial follow-up turns on `emptyPlan`. -/
def emptyPlanFinal : TravelPlan :=
  { id := 2
    content := "Itinerary for Rome."
    destination := "Rome"
    thread_id := some "user_1_plan_2"
    conversation_history :=
      some [⟨"assistant", "Itinerary for Rome."⟩,
            ⟨"user", "Budget?"⟩, ⟨"assistant", "Sure, here are more details."⟩,
            ⟨"user", "Food?"⟩, ⟨"assistant", "Sure, here are more details."⟩] }

/-- The argument sequence that defeats the cache: `"groq"`, then 128 distinct
other providers, then `"groq"` again. -/
def evictionArgs : List String :=
  "groq" :: ((List.range 128).map (fun i => "p" ++ toString i) ++ ["groq"])

/-- A graph invoke whose every attempt raises a tool-invocation error. -/
def failInvoke : Invoke := fun _ _ => .error "tool_use_failed"

/-- A graph invoke that raises a tool-invocation error on the first attempt
and succeeds on later ones. -/
def toolFailOnceInvoke : Invoke :=
  fun a _ => if a = 0 then .error "tool_use_failed" else .ok [.ai "ok" []]

/-- A graph invoke that always raises an infrastructure error. -/
def modelDownInvoke : Invoke := fun _ _ => .error "Model unavailable: 503"

/-- The response of `continue_conversation okInvoke 1 emptyPlan "hi"`. -/
def emptyPlanResp : ChatResponse :=
  { message := "Sure, here are more details."
    conversation_history :=
      [⟨"assistant", "Itinerary for Rome."⟩, ⟨"user", "hi"⟩,
       ⟨"assistant", "Sure, here are more details."⟩]
    plan_id := 2
    thread_id := "user_1_plan_2" }

/-- The plan row left by `continue_conversation okInvoke 1 emptyPlan "hi"`. -/
def emptyPlanAfter : TravelPlan :=
  { id := 2
    content := "Itinerary for Rome."
    destination := "Rome"
    thread_id := some "user_1_plan_2"
    conversation_history :=
      some [⟨"assistant", "Itinerary for Rome."⟩, ⟨"user", "hi"⟩,
            ⟨"assistant", "Sure, here are more details."⟩] }

/-- The response of
`continue_conversation okInvoke 1 genPlan "What about hotels?"`. -/
def genResp : ChatResponse :=
  { message := "Sure, here are more details."
    conversation_history :=
      [⟨"user", "Plan a 3-day trip to Paris"⟩,
       ⟨"assistant", "Day 1: arrive in Paris."⟩,
       ⟨"user", "What about hotels?"⟩,
       ⟨"assistant", "Sure, here are more details."⟩]
    plan_id := 1
    thread_id := "user_1_new_plan_1700000000" }

/-- The plan row left by
`continue_conversation okInvoke 1 genPlan "What about hotels?"`. -/
def genAfter : TravelPlan :=
  { id := 1
    content := "Day 1: arrive in Paris."
    destination := "Paris"
    thread_id := some "user_1_new_plan_1700000000"
    conversation_history :=
      some [⟨"user", "Plan a 3-day trip to Paris"⟩,
            ⟨"assistant", "Day 1: arrive in Paris."⟩,
            ⟨"user", "What about hotels?"⟩,
            ⟨"assistant", "Sure, here are more details."⟩] }

/-- The response of
`continue_conversation failInvoke 4 emptyPlan "Need a hotel"`. -/
def failResp : ChatResponse :=
  { message := fallbackResponse "Rome"
    conversation_history :=
      [⟨"assistant", "Itinerary for Rome."⟩, ⟨"user", "Need a hotel"⟩,
       ⟨"assistant", fallbackResponse "Rome"⟩]
    plan_id := 2
    thread_id := "user_4_plan_2" }

/-- The plan row left by
`continue_conversation failInvoke 4 emptyPlan "Need a hotel"`. -/
def failAfter : TravelPlan :=
  { id := 2
    content := "Itinerary for Rome."
    destination := "Rome"
    thread_id := some "user_4_plan_2"
    conversation_history :=
      some [⟨"assistant", "Itinerary for Rome."⟩, ⟨"user", "Need a hotel"⟩,
            ⟨"assistant", fallbackResponse "Rome"⟩] }

/-- A cache state holding instances for `"groq"` and `"openai"`. -/
def lruHitState : LruState := ⟨[("groq", 0), ("openai", 1)], 2, 2⟩

/-- A cache state holding only an instance for `"groq"`. -/
def lruMissState : LruState := ⟨[("groq", 0)], 1, 1⟩

/-! ### Helper lemmas -/

theorem seededHistory_of_empty (plan : TravelPlan)
    (h : plan.conversation_history.getD [] = []) :
    seededHistory plan = [⟨"assistant", plan.content⟩] := by
  simp [seededHistory, h]

theorem seededHistory_of_nonempty (plan : TravelPlan) (ch : List Message)
    (h : plan.conversation_history = some ch) (hne : ch ≠ []) :
    seededHistory plan = ch := by
  simp [seededHistory, h, List.isEmpty_iff, hne]

/-- A successful follow-up turn appends exactly the user message and the
returned assistant message to the seeded history, both in the response and in
the persisted row, and changes nothing else on the plan row except the
thread id. -/
theorem continue_ok (invoke : Invoke) (userId : Nat) (plan : TravelPlan)
    (m : String) (resp : ChatResponse) (plan' : TravelPlan)
    (h : continue_conversation invoke userId plan m = .ok (resp, plan')) :
    plan'.conversation_history
        = some (seededHistory plan ++ [⟨"user", m⟩, ⟨"assistant", resp.message⟩])
      ∧ resp.conversation_history
        = seededHistory plan ++ [⟨"user", m⟩, ⟨"assistant", resp.message⟩]
      ∧ plan'.id = plan.id ∧ plan'.content = plan.content
      ∧ plan'.destination = plan.destination ∧ resp.plan_id = plan.id := by
  simp only [continue_conversation, update_conversation_history] at h
  split at h
  · exact absurd h (by simp)
  · simp only [Except.ok.injEq, Prod.mk.injEq] at h
    obtain ⟨hr, hp⟩ := h
    subst hr
    subst hp
    simp

/-- The retry loop reports at most `attempt + remaining` attempts. -/
theorem chatLoopAux_ok_le (invoke : Invoke) (maxRetries : Nat) (dest : String) :
    ∀ remaining attempt msgs r n,
      chatLoopAux invoke maxRetries dest remaining attempt msgs = .ok (r, n) →
      n ≤ attempt + remaining := by
  intro remaining
  induction remaining with
  | zero =>
    intro attempt msgs r n h
    simp only [chatLoopAux, Except.ok.injEq, Prod.mk.injEq] at h
    omega
  | succ rem ih =>
    intro attempt msgs r n h
    simp only [chatLoopAux] at h
    split at h
    · split at h
      · simp only [Except.ok.injEq, Prod.mk.injEq] at h
        omega
      · exact absurd h (by simp)
    · split at h
      · split at h
        · have := ih (attempt + 1) (simplifyLast msgs) r n h
          omega
        · simp only [Except.ok.injEq, Prod.mk.injEq] at h
          omega
      · exact absurd h (by simp)

/-- Serial follow-up turns on a plan with nonempty stored history append
user/assistant pairs, one per turn, in arrival order. -/
theorem runTurns_hist (invoke : Invoke) (userId : Nat) :
    ∀ (msgs : List String) (plan : TravelPlan) (ch : List Message)
      (plan' : TravelPlan),
      plan.conversation_history = some ch → ch ≠ [] →
      runTurns invoke userId plan msgs = .ok plan' →
      ∃ replies, replies.length = msgs.length ∧
        plan'.conversation_history = some (ch ++ pairsLog msgs replies) := by
  intro msgs
  induction msgs with
  | nil =>
    intro plan ch plan' hch _ hrun
    simp only [runTurns, Except.ok.injEq] at hrun
    subst hrun
    exact ⟨[], by simp [pairsLog, hch]⟩
  | cons m ms ih =>
    intro plan ch plan' hch hne hrun
    simp only [runTurns] at hrun
    split at hrun
    · exact absurd hrun (by simp)
    · rename_i resp plan₁ hc
      have hs := continue_ok invoke userId plan m resp plan₁ hc
      have hseed := seededHistory_of_nonempty plan ch hch hne
      have hch₁ : plan₁.conversation_history
          = some (ch ++ [⟨"user", m⟩, ⟨"assistant", resp.message⟩]) := by
        rw [hs.1, hseed]
      obtain ⟨rs, hlen, hfin⟩ := ih plan₁
        (ch ++ [⟨"user", m⟩, ⟨"assistant", resp.message⟩]) plan' hch₁
        (by simp) hrun
      refine ⟨resp.message :: rs, by simp [hlen], ?_⟩
      rw [hfin]
      simp [pairsLog]

theorem pairsLogOk_pairsLog :
    ∀ (us rs : List String), rs.length = us.length →
      pairsLogOk us (pairsLog us rs) = true := by
  intro us
  induction us with
  | nil =>
    intro rs h
    cases rs with
    | nil => simp [pairsLog, pairsLogOk]
    | cons r rs => simp at h
  | cons u us ih =>
    intro rs h
    cases rs with
    | nil => simp at h
    | cons r rs =>
      simp only [List.length_cons, Nat.succ.injEq] at h
      simp [pairsLog, pairsLogOk, ih rs h]

theorem pairsLog_length :
    ∀ (us rs : List String), rs.length = us.length →
      (pairsLog us rs).length = 2 * us.length := by
  intro us
  induction us with
  | nil =>
    intro rs h
    cases rs with
    | nil => simp [pairsLog]
    | cons r rs => simp at h
  | cons u us ih =>
    intro rs h
    cases rs with
    | nil => simp at h
    | cons r rs =>
      simp only [List.length_cons, Nat.succ.injEq] at h
      simp only [pairsLog, List.length_cons, ih rs h]
      ring

/-! ### Claim theorems -/

/-- C6. If a plan has no stored conversation history at the start of a
follow-up turn, the log used for the turn starts with an assistant message
holding the plan's original content, the persisted log is exactly that seed
followed by the user message and the assistant reply, and the persisted log
is nonempty. -/
theorem seed_on_empty_history (invoke : Invoke) (userId : Nat)
    (plan : TravelPlan) (m : String) (resp : ChatResponse) (plan' : TravelPlan)
    (h0 : plan.conversation_history.getD [] = [])
    (h : continue_conversation invoke userId plan m = .ok (resp, plan')) :
    (seededHistory plan ++ [Message.mk "user" m]).head?
        = some (Message.mk "assistant" plan.content)
      ∧ plan'.conversation_history
        = some [Message.mk "assistant" plan.content, Message.mk "user" m,
                Message.mk "assistant" resp.message]
      ∧ plan'.conversation_history.getD [] ≠ [] := by
  have hs := continue_ok invoke userId plan m resp plan' h
  have hseed := seededHistory_of_empty plan h0
  refine ⟨by simp [hseed], ?_, ?_⟩
  · rw [hs.1, hseed]
    simp
  · rw [hs.1, hseed]
    simp

/-- C8. Reading the history right after a completed follow-up turn returns
the previous log with the turn's assistant message appended exactly once, as
the last entry. -/
theorem history_roundtrip (invoke : Invoke) (userId : Nat)
    (plan : TravelPlan) (m : String) (resp : ChatResponse) (plan' : TravelPlan)
    (h : continue_conversation invoke userId plan m = .ok (resp, plan')) :
    (get_conversation_history plan').conversation
        = (seededHistory plan ++ [Message.mk "user" m])
            ++ [Message.mk "assistant" resp.message]
      ∧ (get_conversation_history plan').conversation.getLast?
        = some (Message.mk "assistant" resp.message)
      ∧ (get_conversation_history plan').conversation.count
          (Message.mk "assistant" resp.message)
        = (seededHistory plan ++ [Message.mk "user" m]).count
            (Message.mk "assistant" resp.message) + 1 := by
  have hs := continue_ok invoke userId plan m resp plan' h
  have hconv : (get_conversation_history plan').conversation
      = (seededHistory plan ++ [Message.mk "user" m])
          ++ [Message.mk "assistant" resp.message] := by
    simp [get_conversation_history, hs.1]
  refine ⟨hconv, ?_, ?_⟩
  · rw [hconv]
    simp
  · rw [hconv]
    simp [List.count_append]

/-- C9. However many retry attempts rewrote the transient model input, the
persisted and returned history contain the user's original message unchanged:
the log is exactly the prior (seeded) history, then the original user message,
then the single appended assistant message. -/
theorem persisted_history_frame (invoke : Invoke) (userId : Nat)
    (plan : TravelPlan) (m : String) (resp : ChatResponse) (plan' : TravelPlan)
    (h : continue_conversation invoke userId plan m = .ok (resp, plan')) :
    plan'.conversation_history
        = some (seededHistory plan
            ++ [Message.mk "user" m, Message.mk "assistant" resp.message])
      ∧ resp.conversation_history
        = seededHistory plan
            ++ [Message.mk "user" m, Message.mk "assistant" resp.message] := by
  have hs := continue_ok invoke userId plan m resp plan' h
  exact ⟨hs.1, hs.2.1⟩

/-- C4 (amended). For a plan whose stored history is empty when the first
follow-up arrives, a serial run of N ≥ 1 follow-up turns persists exactly the
seed assistant message followed by the N user/assistant pairs in arrival
order: 1 + 2N entries. -/
theorem serial_log_shape (invoke : Invoke) (userId : Nat)
    (plan : TravelPlan) (msgs : List String) (plan' : TravelPlan)
    (h0 : plan.conversation_history.getD [] = [])
    (hne : msgs ≠ [])
    (hrun : runTurns invoke userId plan msgs = .ok plan') :
    seedPairsLogOk (Message.mk "assistant" plan.content) msgs
        (plan'.conversation_history.getD []) = true
      ∧ (plan'.conversation_history.getD []).length = 1 + 2 * msgs.length := by
  cases msgs with
  | nil => exact absurd rfl hne
  | cons m ms =>
    simp only [runTurns] at hrun
    split at hrun
    · exact absurd hrun (by simp)
    · rename_i resp plan₁ hc
      have hs := continue_ok invoke userId plan m resp plan₁ hc
      have hseed := seededHistory_of_empty plan h0
      have hch₁ : plan₁.conversation_history
          = some (Message.mk "assistant" plan.content
              :: [⟨"user", m⟩, ⟨"assistant", resp.message⟩]) := by
        rw [hs.1, hseed]
        rfl
      obtain ⟨rs, hlen, hfin⟩ := runTurns_hist invoke userId ms plan₁
        (Message.mk "assistant" plan.content
          :: [⟨"user", m⟩, ⟨"assistant", resp.message⟩]) plan' hch₁
        (by simp) hrun
      have hfin' : plan'.conversation_history.getD []
          = Message.mk "assistant" plan.content
              :: pairsLog (m :: ms) (resp.message :: rs) := by
        rw [hfin]
        simp [pairsLog]
      constructor
      · rw [hfin']
        simp only [seedPairsLogOk]
        have := pairsLogOk_pairsLog (m :: ms) (resp.message :: rs)
          (by simp [hlen])
        simp [this]
      · rw [hfin']
        have := pairsLog_length (m :: ms) (resp.message :: rs) (by simp [hlen])
        simp only [List.length_cons, this, List.length_cons]
        omega

/-- C4 (counterexample). For a plan created by the generate endpoint, one
serial follow-up (N = 1) leaves a log of 4 entries, not 1 + 2·1 = 3, and the
log does not have the claimed seed-then-pairs shape (it starts with the
generating user message, not a seed assistant message). -/
theorem serial_log_cex :
    isOkPlan genPlanRun = true
      ∧ (historyOf genPlanRun).length = 4
      ∧ (4 : Nat) ≠ 1 + 2 * 1
      ∧ seedPairsLogOk (Message.mk "assistant" genPlan.content)
          ["What about hotels?"] (historyOf genPlanRun) = false := by
  decide

/-- Witness for the amended C4 at a concrete two-turn run. -/
theorem serial_log_shape_witness :
    seedPairsLogOk (Message.mk "assistant" emptyPlan.content)
        ["Budget?", "Food?"] (emptyPlanFinal.conversation_history.getD []) = true
      ∧ (emptyPlanFinal.conversation_history.getD []).length = 1 + 2 * 2 := by
  have h := serial_log_shape okInvoke 1 emptyPlan ["Budget?", "Food?"]
    emptyPlanFinal (by decide) (by decide) (by rfl)
  simpa using h

theorem fallbackResponse_parts (dest : String) :
    fallbackResponse dest =
      (("I apologize, but I\x27m having trouble processing your request about "
        ++ dest ++ ". ")
        ++ "Please try rephrasing")
        ++ " your question or ask something more specific about your trip plan." := by
  have h : ". Please try rephrasing your question or ask something more specific about your trip plan."
      = (". " ++ "Please try rephrasing")
        ++ " your question or ask something more specific about your trip plan." := rfl
  rw [fallbackResponse, h]
  simp [String.append_assoc]

theorem dest_infix_fallback (dest : String) :
    List.IsInfix dest.toList (fallbackResponse dest).toList := by
  refine ⟨"I apologize, but I\x27m having trouble processing your request about ".toList,
    (". Please try rephrasing your question or ask something more specific about your trip plan.").toList, ?_⟩
  simp [fallbackResponse, String.toList, String.data_append, List.append_assoc]

theorem rephrase_infix_fallback (dest : String) :
    List.IsInfix "Please try rephrasing".toList (fallbackResponse dest).toList := by
  refine ⟨("I apologize, but I\x27m having trouble processing your request about "
    ++ dest ++ ". ").toList,
    " your question or ask something more specific about your trip plan.".toList, ?_⟩
  rw [fallbackResponse_parts]
  simp [String.toList, String.data_append, List.append_assoc]

theorem fallbackResponse_ne_empty (dest : String) : fallbackResponse dest ≠ "" := by
  intro h
  have h2 : (fallbackResponse dest).toList = [] := by rw [h]; rfl
  simp [fallbackResponse, String.toList, String.data_append] at h2

/-- C2. If every retry attempt raises a tool-invocation error, the turn still
completes without raising, and returns the deterministic fallback assistant
message, which is nonempty, names the plan's destination, and asks the user
to rephrase. -/
theorem fallback_on_exhausted_retries (invoke : Invoke) (userId : Nat)
    (plan : TravelPlan) (m : String)
    (hfail : ∀ a msgs, ∃ e, invoke a msgs = .error e ∧ isToolError e = true) :
    turnOk (continue_conversation invoke userId plan m) = true
      ∧ turnMessage (continue_conversation invoke userId plan m)
        = fallbackResponse plan.destination
      ∧ turnMessage (continue_conversation invoke userId plan m) ≠ ""
      ∧ List.IsInfix plan.destination.toList
          (turnMessage (continue_conversation invoke userId plan m)).toList
      ∧ List.IsInfix "Please try rephrasing".toList
          (turnMessage (continue_conversation invoke userId plan m)).toList := by
  obtain ⟨e0, he0, ht0⟩ :=
    hfail 0 (toLangGraph (seededHistory plan ++ [⟨"user", m⟩]))
  obtain ⟨e1, he1, ht1⟩ :=
    hfail 1 (simplifyLast (toLangGraph (seededHistory plan ++ [⟨"user", m⟩])))
  have hloop : chatLoop invoke 2 plan.destination
      (toLangGraph (seededHistory plan ++ [⟨"user", m⟩]))
      = .ok (fallbackResponse plan.destination, 2) := by
    simp [chatLoop, chatLoopAux, he0, ht0, he1, ht1]
  have hmsg : turnMessage (continue_conversation invoke userId plan m)
      = fallbackResponse plan.destination := by
    simp [continue_conversation, hloop, update_conversation_history, turnMessage]
  refine ⟨?_, hmsg, ?_, ?_, ?_⟩
  · simp [continue_conversation, hloop, update_conversation_history, turnOk]
  · rw [hmsg]
    exact fallbackResponse_ne_empty plan.destination
  · rw [hmsg]
    exact dest_infix_fallback plan.destination
  · rw [hmsg]
    exact rephrase_infix_fallback plan.destination

/-- C3. With `max_retries = 2`, a tool-invocation failure on the first
attempt makes the loop retry on the input whose most recent user message has
been replaced by the simplified paraphrase, and the loop never reports more
than 2 attempts. -/
theorem retry_simplifies (invoke : Invoke) (dest : String)
    (msgs : List LCMessage) (c e : String)
    (hlast : msgs.getLast? = some (.human c))
    (herr : invoke 0 msgs = .error e)
    (htool : isToolError e = true) :
    chatLoop invoke 2 dest msgs
      = chatLoopAux invoke 2 dest 1 1
          (msgs.dropLast ++ [.human ("Please provide information about: " ++ c)])
      ∧ attemptsOf (chatLoop invoke 2 dest msgs) ≤ 2 := by
  have hsimp : simplifyLast msgs
      = msgs.dropLast ++ [.human ("Please provide information about: " ++ c)] := by
    simp [simplifyLast, hlast]
  constructor
  · rw [← hsimp]
    simp [chatLoop, chatLoopAux, herr, htool]
  · cases hres : chatLoop invoke 2 dest msgs with
    | error e' => simp [attemptsOf]
    | ok p =>
      have hle := chatLoopAux_ok_le invoke 2 dest 2 0 msgs p.1 p.2
        (by rw [← chatLoop]; rw [hres])
      simpa [attemptsOf] using hle

/-- C5. An error whose rendering does not match the tool-failure test is
never retried: with any attempts remaining the loop re-raises it at once, and
the turn fails with the route's HTTP 500 detail string. -/
theorem nontool_error_fatal (invoke : Invoke)
    (maxRetries remaining attempt : Nat) (dest : String)
    (msgs : List LCMessage) (e : String) (userId : Nat)
    (plan : TravelPlan) (m : String)
    (herr : invoke attempt msgs = .error e)
    (htool : isToolError e = false)
    (herr0 : invoke 0 (toLangGraph (seededHistory plan ++ [⟨"user", m⟩]))
      = .error e) :
    chatLoopAux invoke maxRetries dest (remaining + 1) attempt msgs = .error e
      ∧ continue_conversation invoke userId plan m
        = .error ("Failed to process message: " ++ e) := by
  constructor
  · simp [chatLoopAux, herr, htool]
  · have hloop : chatLoop invoke 2 plan.destination
        (toLangGraph (seededHistory plan ++ [⟨"user", m⟩])) = .error e := by
      simp [chatLoop, chatLoopAux, herr0, htool]
    simp [continue_conversation, hloop]

/-- C7. After the agent node runs, the `"tools"` node is scheduled exactly
when the model's latest output carries one or more tool calls; `END` is
always among the successors (the source wires both the conditional edges and
an unconditional `add_edge("agent", END)`), so in particular the run goes to
`END` when the output carries none; and from `"tools"` the graph returns to
the agent node unconditionally, with the tool outputs appended to the message
log before re-entering it. -/
theorem agent_graph_transitions (model : List LCMessage → LCMessage)
    (registry : ToolCall → String) (msgs : List LCMessage) :
    ((GNode.tools, agent_function model msgs)
        ∈ graphStep model registry (GNode.agent, msgs)
      ↔ lastToolCalls (agent_function model msgs) ≠ [])
      ∧ (GNode.endNode, agent_function model msgs)
        ∈ graphStep model registry (GNode.agent, msgs)
      ∧ graphStep model registry (GNode.tools, msgs)
        = [(GNode.agent,
            msgs ++ (lastToolCalls msgs).map fun tc => .toolResult (registry tc))] := by
  refine ⟨?_, ?_, ?_⟩
  · by_cases h : lastToolCalls (agent_function model msgs) = []
    · simp [graphStep, tools_condition, h]
    · simp [graphStep, tools_condition, List.isEmpty_iff, h]
  · simp [graphStep]
  · simp [graphStep, tool_node]

/-- `find?` over a filter that removes only elements the predicate cannot
match returns the unfiltered result. -/
theorem find?_filter_of_imp {α : Type} (p q : α → Bool) :
    ∀ l : List α, (∀ x, p x = true → q x = true) →
      (l.filter q).find? p = l.find? p := by
  intro l himp
  induction l with
  | nil => rfl
  | cons x xs ih =>
    by_cases hq : q x = true
    · by_cases hp : p x = true
      · simp [hq, hp]
      · have hp' : p x = false := by simpa using hp
        simp [hq, hp', ih]
    · have hq' : q x = false := by simpa using hq
      have hp' : p x = false := by
        cases hpx : p x
        · rfl
        · exact absurd (himp x hpx) (by simp [hq'])
      simp [hq', hp', ih]

/-- C10 (amended). While an argument's entry is still cached, calling
`get_graph_builder` with it returns the cached instance, runs no constructor,
and evicts nothing; a miss below the `lru_cache` capacity of 128 runs the
constructor once, caches the new instance, and also evicts nothing. -/
theorem get_graph_builder_cached (st st' : LruState) (a b b' c : String)
    (id : Nat)
    (hhit : cachedId st a = some id)
    (hb : b ≠ a)
    (hmiss : cachedId st' b' = none)
    (hlen : st'.entries.length < lruMaxsize)
    (hc : c ≠ b') :
    (get_graph_builder st a).1 = id
      ∧ (get_graph_builder st a).2.ctorRuns = st.ctorRuns
      ∧ cachedId (get_graph_builder st a).2 a = some id
      ∧ cachedId (get_graph_builder st a).2 b = cachedId st b
      ∧ (get_graph_builder st' b').1 = st'.nextId
      ∧ (get_graph_builder st' b').2.ctorRuns = st'.ctorRuns + 1
      ∧ cachedId (get_graph_builder st' b').2 b' = some st'.nextId
      ∧ cachedId (get_graph_builder st' b').2 c = cachedId st' c := by
  cases hf : st.entries.find? (fun p => p.1 == a) with
  | none => simp [cachedId, hf] at hhit
  | some pr =>
    have hid : pr.2 = id := by simpa [cachedId, hf] using hhit
    cases hf' : st'.entries.find? (fun p => p.1 == b') with
    | some pr' => simp [cachedId, hf'] at hmiss
    | none =>
      have htake : ((b', st'.nextId) :: st'.entries).take lruMaxsize
          = (b', st'.nextId) :: st'.entries := by
        apply List.take_of_length_le
        simp only [List.length_cons]
        omega
      refine ⟨?_, ?_, ?_, ?_, ?_, ?_, ?_, ?_⟩
      · simp [get_graph_builder, hf, hid]
      · simp [get_graph_builder, hf]
      · simp [get_graph_builder, hf, cachedId, List.find?_cons_of_pos, hid]
      · have hhead : ((fun p => p.1 == b) ((a, pr.2) : String × Nat)) = false := by
          simp [Ne.symm hb]
        have hfilter := find?_filter_of_imp (fun p => p.1 == b)
          (fun p => p.1 != a) st.entries
          (by
            intro x hx
            have hxb : x.1 = b := by simpa using hx
            simp [hxb, hb])
        simp [get_graph_builder, hf, cachedId, List.find?_cons_of_neg, hhead,
          hfilter]
      · simp [get_graph_builder, hf']
      · simp [get_graph_builder, hf']
      · simp [get_graph_builder, hf', cachedId, htake, List.find?_cons_of_pos]
      · have hhead : ((fun p => p.1 == c) ((b', st'.nextId) : String × Nat)) = false := by
          simp [Ne.symm hc]
        simp [get_graph_builder, hf', cachedId, htake,
          List.find?_cons_of_neg, hhead]

set_option maxRecDepth 8192 in
/-- C10 (counterexample). The first and the last call both pass `"groq"`, yet
they receive different instances, and the constructor runs 130 times for 129
distinct argument values: `lru_cache()` has `maxsize = 128`, so the 128
distinct providers in between evict the `"groq"` entry. -/
theorem get_graph_builder_eviction_cex :
    (runCalls initLru evictionArgs).1.head? = some 0
      ∧ (runCalls initLru evictionArgs).1.getLast? = some 129
      ∧ some (0 : Nat) ≠ some 129
      ∧ (runCalls initLru evictionArgs).2.ctorRuns = 130 := by
  decide

/-- Witness for C2 at a concrete always-failing invoke. -/
theorem fallback_witness :
    turnOk (continue_conversation failInvoke 4 emptyPlan "Need a hotel") = true
      ∧ turnMessage (continue_conversation failInvoke 4 emptyPlan "Need a hotel")
        = fallbackResponse emptyPlan.destination
      ∧ turnMessage (continue_conversation failInvoke 4 emptyPlan "Need a hotel") ≠ ""
      ∧ List.IsInfix emptyPlan.destination.toList
          (turnMessage (continue_conversation failInvoke 4 emptyPlan "Need a hotel")).toList
      ∧ List.IsInfix "Please try rephrasing".toList
          (turnMessage (continue_conversation failInvoke 4 emptyPlan "Need a hotel")).toList :=
  fallback_on_exhausted_retries failInvoke 4 emptyPlan "Need a hotel"
    (fun _ _ => ⟨"tool_use_failed", rfl, by decide⟩)

/-- Witness for C3 at a concrete invoke failing once. -/
theorem retry_simplifies_witness :
    chatLoop toolFailOnceInvoke 2 "Paris" [.human "What is the hotel budget?"]
      = chatLoopAux toolFailOnceInvoke 2 "Paris" 1 1
          ([LCMessage.human "What is the hotel budget?"].dropLast
            ++ [.human ("Please provide information about: "
                  ++ "What is the hotel budget?")])
      ∧ attemptsOf (chatLoop toolFailOnceInvoke 2 "Paris"
          [.human "What is the hotel budget?"]) ≤ 2 :=
  retry_simplifies toolFailOnceInvoke "Paris" [.human "What is the hotel budget?"]
    "What is the hotel budget?" "tool_use_failed" (by decide) rfl (by decide)

/-- Witness for C5 at a concrete infrastructure error. -/
theorem nontool_error_fatal_witness :
    chatLoopAux modelDownInvoke 2 "Rome" (1 + 1) 0 [.human "hi"]
        = .error "Model unavailable: 503"
      ∧ continue_conversation modelDownInvoke 1 emptyPlan "hi"
        = .error ("Failed to process message: " ++ "Model unavailable: 503") :=
  nontool_error_fatal modelDownInvoke 2 1 0 "Rome" [.human "hi"]
    "Model unavailable: 503" 1 emptyPlan "hi" rfl (by decide) rfl

/-- Witness for C6 at a concrete plan with no stored history. -/
theorem seed_on_empty_history_witness :
    (seededHistory emptyPlan ++ [Message.mk "user" "hi"]).head?
        = some (Message.mk "assistant" emptyPlan.content)
      ∧ emptyPlanAfter.conversation_history
        = some [Message.mk "assistant" emptyPlan.content, Message.mk "user" "hi",
                Message.mk "assistant" emptyPlanResp.message]
      ∧ emptyPlanAfter.conversation_history.getD [] ≠ [] :=
  seed_on_empty_history okInvoke 1 emptyPlan "hi" emptyPlanResp emptyPlanAfter
    (by decide) rfl

/-- Witness for C8 at a concrete turn on the generated plan. -/
theorem history_roundtrip_witness :
    (get_conversation_history genAfter).conversation
        = (seededHistory genPlan ++ [Message.mk "user" "What about hotels?"])
            ++ [Message.mk "assistant" genResp.message]
      ∧ (get_conversation_history genAfter).conversation.getLast?
        = some (Message.mk "assistant" genResp.message)
      ∧ (get_conversation_history genAfter).conversation.count
          (Message.mk "assistant" genResp.message)
        = (seededHistory genPlan ++ [Message.mk "user" "What about hotels?"]).count
            (Message.mk "assistant" genResp.message) + 1 :=
  history_roundtrip okInvoke 1 genPlan "What about hotels?" genResp genAfter rfl

/-- Witness for C9 at a concrete turn whose retries both failed, so the
transient model input was simplified, yet the persisted log keeps the
original user message. -/
theorem persisted_history_frame_witness :
    failAfter.conversation_history
        = some (seededHistory emptyPlan
            ++ [Message.mk "user" "Need a hotel",
                Message.mk "assistant" failResp.message])
      ∧ failResp.conversation_history
        = seededHistory emptyPlan
            ++ [Message.mk "user" "Need a hotel",
                Message.mk "assistant" failResp.message] :=
  persisted_history_frame failInvoke 4 emptyPlan "Need a hotel" failResp failAfter rfl

/-- Witness for the amended C10 at concrete cache states. -/
theorem get_graph_builder_cached_witness :
    (get_graph_builder lruHitState "groq").1 = 0
      ∧ (get_graph_builder lruHitState "groq").2.ctorRuns = lruHitState.ctorRuns
      ∧ cachedId (get_graph_builder lruHitState "groq").2 "groq" = some 0
      ∧ cachedId (get_graph_builder lruHitState "groq").2 "openai"
        = cachedId lruHitState "openai"
      ∧ (get_graph_builder lruMissState "openai").1 = lruMissState.nextId
      ∧ (get_graph_builder lruMissState "openai").2.ctorRuns
        = lruMissState.ctorRuns + 1
      ∧ cachedId (get_graph_builder lruMissState "openai").2 "openai"
        = some lruMissState.nextId
      ∧ cachedId (get_graph_builder lruMissState "openai").2 "groq"
        = cachedId lruMissState "groq" :=
  get_graph_builder_cached lruHitState lruMissState "groq" "openai" "openai"
    "groq" 0 (by decide) (by decide) (by decide) (by decide) (by decide)

end Vacation
